import Mathlib

/-!
# Verification of `monitor-console.py` (ec2-console-log-monitor)

A shallow embedding of the single source file `src/monitor-console.py`.
The program is a polling loop: enumerate tagged EC2 instances, fetch each
instance's console output, compare the response timestamp with an in-memory
`last_update` dictionary, and on a changed timestamp deliver the output to
S3 (always) and optionally to a local file and to standard output.

External collaborators (the EC2 and S3 clients, the filesystem) are modelled
as an `Env` of fallible functions supplied per polling cycle; the observable
behaviour of one step is a trace of `Event`s (log calls, S3 puts, stdout
lines, file writes, sleeps).  Python exceptions of a call are modelled as
`Except.error`; an exception the script does not catch (the local file write)
propagates as `Except.error` of the whole step, carrying the tracker state
and the trace accumulated before the crash.
-/

set_option autoImplicit false

namespace MonitorConsole

/-- A timestamp as delivered by the EC2 API (a timezone-aware datetime in the
Python source); modelled by its calendar components, which is all the script
inspects: it compares timestamps for equality, renders them with `str` (in the
S3 key and log lines) and with `strftime` (in the local file name). -/
structure Timestamp where
  year : Nat
  month : Nat
  day : Nat
  hour : Nat
  minute : Nat
  second : Nat
deriving Repr, DecidableEq

/-- Zero-pad a number to two digits, as Python `datetime` rendering does. -/
def pad2 (n : Nat) : String :=
  if n < 10 then "0" ++ toString n else toString n

/-- Zero-pad a number to four digits, as Python `datetime` rendering does. -/
def pad4 (n : Nat) : String :=
  if n < 10 then "000" ++ toString n
  else if n < 100 then "00" ++ toString n
  else if n < 1000 then "0" ++ toString n
  else toString n

/-- Python `str(timestamp)`: the canonical rendering Python uses when a `datetime`
is interpolated into an f-string, as in the S3 key `f"{instanceId}/{timestamp}"`
and the log messages. -/
def tsStr (t : Timestamp) : String :=
  pad4 t.year ++ "-" ++ pad2 t.month ++ "-" ++ pad2 t.day ++ " "
    ++ pad2 t.hour ++ ":" ++ pad2 t.minute ++ ":" ++ pad2 t.second

/-- Python `timestamp.strftime('%Y-%m-%dT%H%M%S')`, used for the local file name. -/
def tsStrftime (t : Timestamp) : String :=
  pad4 t.year ++ "-" ++ pad2 t.month ++ "-" ++ pad2 t.day ++ "T"
    ++ pad2 t.hour ++ pad2 t.minute ++ pad2 t.second

/-- The part of `ec2.get_console_output`'s response the script reads:
`response["Timestamp"]` (always present) and `response["Output"]`
(absent when the platform has produced no console data yet). -/
structure ConsoleResponse where
  timestamp : Timestamp
  output : Option String
deriving Repr, DecidableEq

/-- Parsed command-line arguments of the script. -/
structure Args where
  tag : String
  region : String
  bucket : String
  interval : Nat
  file : Bool
  prnt : Bool
  quiet : Bool
deriving Repr, DecidableEq

/-- One observable action of the script.  Log events record the call made to
the `logging` module (the `--quiet` flag only changes the display threshold,
not which calls are made); `s3Put` is a `put_object` call that succeeded;
`fileWrite` is a completed local file write (mode `"w"`, truncating);
`stdoutLine` is one line printed to standard output; `sleep` is the
`time.sleep` call ending a cycle. -/
inductive Event where
  | logDebug (msg : String)
  | logInfo (msg : String)
  | logWarning (msg : String)
  | logError (msg : String)
  | s3Put (bucket : String) (key : String) (body : String)
  | stdoutLine (line : String)
  | fileWrite (filename : String) (content : String)
  | sleep (seconds : Nat)
deriving Repr, DecidableEq

/-- The external world for one polling cycle: the EC2 `describe_instances`
result (reservations, each holding the instance ids of its `"Instances"`
list), the per-instance `get_console_output` result, the S3
`put_object` outcome, and the local filesystem's response to opening and
writing a file.  `Except.error e` models the call raising an exception
rendered as `e`. -/
structure Env where
  reservations : Except String (List (List String))
  console : String → Except String ConsoleResponse
  s3put : String → String → String → Except String Unit
  fileW : String → Except String Unit

/-- The `last_update` dictionary: instance id to last recorded timestamp.
Modelled as an association list with at most one entry per key. -/
abbrev TrackerState := List (String × Timestamp)

/-- Dictionary lookup, `last_update[instanceId]` guarded by
`instanceId in last_update`. -/
def lookupTs : TrackerState → String → Option Timestamp
  | [], _ => none
  | (j, u) :: rest, i => if j = i then some u else lookupTs rest i

/-- Dictionary assignment `last_update[instanceId] = timestamp`: overwrite the
existing entry or append a new one. -/
def setTs : TrackerState → String → Timestamp → TrackerState
  | [], i, t => [(i, t)]
  | (j, u) :: rest, i, t =>
      if j = i then (j, t) :: rest else (j, u) :: setTs rest i t

/-- The condition of the script's novelty `if`:
`instanceId in last_update and last_update[instanceId] == timestamp`.
`True` means the snapshot is NOT novel. -/
def notNovelCond (st : TrackerState) (i : String) (t : Timestamp) : Bool :=
  match lookupTs st i with
  | some u => u == t
  | none => false

/-- The Change Tracker novelty check of the spec: a snapshot is novel when
the script's non-novelty condition fails. -/
def isNovel (st : TrackerState) (i : String) (t : Timestamp) : Bool :=
  !(notNovelCond st i t)

/-- Source `out_to_file(instanceId, timestamp, output)`: build the file name,
open it for (truncating) write and `print(output, file=outfile)` — which
appends a newline to `output`.  An exception while opening or writing is not
caught anywhere, so it is the step's `Except.error`. -/
def out_to_file (env : Env) (instanceId : String) (timestamp : Timestamp)
    (output : String) : Except String (List Event) :=
  let filename := instanceId ++ "_" ++ tsStrftime timestamp
  match env.fileW filename with
  | Except.error e => Except.error e
  | Except.ok _ =>
      Except.ok [Event.logInfo ("Writing output to file " ++ filename),
                 Event.fileWrite filename (output ++ "\n")]

/-- Source `out_to_print(instanceId, timestamp, output)`: the five `print` calls. -/
def out_to_print (instanceId : String) (timestamp : Timestamp)
    (output : String) : List Event :=
  [Event.stdoutLine "====================================",
   Event.stdoutLine ("Instance ID: " ++ instanceId),
   Event.stdoutLine ("Timestamp: " ++ tsStr timestamp),
   Event.stdoutLine "------------------------------------",
   Event.stdoutLine output]

/-- Source `out_to_s3(bucket, instanceId, timestamp, output)`: build the key
`f"{instanceId}/{timestamp}"`, log, and attempt `put_object`; any exception
is caught and logged as an error (the error message of the source
concatenates the bucket without a separating space). -/
def out_to_s3 (env : Env) (bucket instanceId : String) (timestamp : Timestamp)
    (output : String) : List Event :=
  let key := instanceId ++ "/" ++ tsStr timestamp
  Event.logInfo ("Writing key " ++ key ++ " to S3 bucket " ++ bucket) ::
    match env.s3put bucket key output with
    | Except.ok _ => [Event.s3Put bucket key output]
    | Except.error e =>
        [Event.logError ("Cannot put object to S3 bucket" ++ bucket ++ ":" ++ e)]

/-- The body of the inner `for instance in instances` loop for one instance:
fetch the console output (a failure is caught, logged, and skips the
instance), test the novelty condition, and on a novel timestamp record it in
`last_update` and, when `"Output"` is present, fan out to S3 and the optional
sinks; when `"Output"` is absent, log a warning.  An uncaught exception (the
local file write) yields `Except.error` carrying the message, the tracker
state and the events already produced. -/
def processInstance (env : Env) (args : Args) (st : TrackerState)
    (instanceId : String) :
    Except (String × TrackerState × List Event) (TrackerState × List Event) :=
  let ev0 := [Event.logInfo ("Retrieving console log for instance " ++ instanceId)]
  match env.console instanceId with
  | Except.error e =>
      Except.ok (st,
        ev0 ++ [Event.logError ("Cannot retrieve log for instance " ++ instanceId ++ ":" ++ e)])
  | Except.ok response =>
      let timestamp := response.timestamp
      if notNovelCond st instanceId timestamp then
        Except.ok (st, ev0 ++ [Event.logInfo ("No updates since " ++ tsStr timestamp)])
      else
        let ev1 := ev0 ++ [Event.logInfo ("Console updated " ++ tsStr timestamp)]
        let st1 := setTs st instanceId response.timestamp
        match response.output with
        | some output =>
            let evS3 := out_to_s3 env args.bucket instanceId timestamp output
            let evPr := if args.prnt then out_to_print instanceId timestamp output else []
            if args.file then
              match out_to_file env instanceId timestamp output with
              | Except.error e => Except.error (e, st1, ev1 ++ evS3 ++ evPr)
              | Except.ok evF => Except.ok (st1, ev1 ++ evS3 ++ evPr ++ evF)
            else
              Except.ok (st1, ev1 ++ evS3 ++ evPr)
        | none =>
            Except.ok (st1,
              ev1 ++ [Event.logWarning ("No console output received for instance " ++ instanceId)])

/-- The inner `for` loop over one reservation's instance list; an uncaught
exception aborts the rest of the list (and the process). -/
def processInstances (env : Env) (args : Args) :
    TrackerState → List String →
    Except (String × TrackerState × List Event) (TrackerState × List Event)
  | st, [] => Except.ok (st, [])
  | st, i :: rest =>
      match processInstance env args st i with
      | Except.error x => Except.error x
      | Except.ok (st1, tr) =>
          match processInstances env args st1 rest with
          | Except.error (e, st2, tr2) => Except.error (e, st2, tr ++ tr2)
          | Except.ok (st2, tr2) => Except.ok (st2, tr ++ tr2)

/-- The outer `for reservation in reservations` loop: a `logging.debug` of the
reservation's instance list, then the inner loop. -/
def processReservations (env : Env) (args : Args) :
    TrackerState → List (List String) →
    Except (String × TrackerState × List Event) (TrackerState × List Event)
  | st, [] => Except.ok (st, [])
  | st, r :: rest =>
      match processInstances env args st r with
      | Except.error (e, st1, tr) =>
          Except.error (e, st1, Event.logDebug (toString r) :: tr)
      | Except.ok (st1, tr) =>
          match processReservations env args st1 rest with
          | Except.error (e, st2, tr2) =>
              Except.error (e, st2, (Event.logDebug (toString r) :: tr) ++ tr2)
          | Except.ok (st2, tr2) =>
              Except.ok (st2, (Event.logDebug (toString r) :: tr) ++ tr2)

/-- One iteration of the `while True` loop: enumerate instances (a failure is
caught, logged, and skips straight to the sleep), process every reservation,
log and sleep. -/
def pollCycle (env : Env) (args : Args) (st : TrackerState) :
    Except (String × TrackerState × List Event) (TrackerState × List Event) :=
  let ev0 := [Event.logInfo "Retrieving instances"]
  match env.reservations with
  | Except.error e =>
      Except.ok (st,
        ev0 ++ [Event.logError ("Cannot list instances: " ++ e),
                Event.sleep args.interval])
  | Except.ok rs =>
      match processReservations env args st rs with
      | Except.error (e, st1, tr) => Except.error (e, st1, ev0 ++ tr)
      | Except.ok (st1, tr) =>
          Except.ok (st1,
            ev0 ++ tr
              ++ [Event.logInfo ("Sleeping for " ++ toString args.interval
                    ++ " seconds, press Ctrl+C to interrupt..."),
                  Event.sleep args.interval])

/-- A finite prefix of the infinite `while True` loop, one `Env` per cycle.
An uncaught exception in a cycle terminates the run there. -/
def runCycles (args : Args) :
    TrackerState → List Env →
    Except (String × TrackerState × List Event) (TrackerState × List Event)
  | st, [] => Except.ok (st, [])
  | st, env :: rest =>
      match pollCycle env args st with
      | Except.error x => Except.error x
      | Except.ok (st1, tr) =>
          match runCycles args st1 rest with
          | Except.error (e, st2, tr2) => Except.error (e, st2, tr ++ tr2)
          | Except.ok (st2, tr2) => Except.ok (st2, tr ++ tr2)

/-- Events that are deliveries to a sink: a successful S3 put, a line printed
to standard output, or a local file write. -/
def Event.isDelivery : Event → Bool
  | Event.s3Put _ _ _ => true
  | Event.stdoutLine _ => true
  | Event.fileWrite _ _ => true
  | _ => false

/-- Successful archive-store writes. -/
def Event.isS3Put : Event → Bool
  | Event.s3Put _ _ _ => true
  | _ => false

/-- Local file writes. -/
def Event.isFileWrite : Event → Bool
  | Event.fileWrite _ _ => true
  | _ => false

/-- The deliveries contained in a trace. -/
def deliveries (tr : List Event) : List Event :=
  tr.filter Event.isDelivery

/-! ## Concrete fixtures used by witnesses and counterexamples -/

/-- A concrete timestamp, 2024-01-02 03:04:05. -/
def tsA : Timestamp := ⟨2024, 1, 2, 3, 4, 5⟩

/-- A second, distinct concrete timestamp — a moment before `tsA`. -/
def tsB : Timestamp := ⟨2023, 12, 31, 23, 59, 58⟩

/-- Concrete arguments: both optional sinks disabled. -/
def argsW : Args := ⟨"monitored", "eu-west-1", "bkt", 60, false, false, false⟩

/-- Concrete arguments: both optional sinks enabled. -/
def argsWF : Args := ⟨"monitored", "eu-west-1", "bkt", 60, true, true, false⟩

/-- A console client answering every instance with the same response. -/
def consoleConst (r : ConsoleResponse) : String → Except String ConsoleResponse :=
  fun _ => Except.ok r

/-- An S3 client whose every put succeeds. -/
def s3AlwaysOk : String → String → String → Except String Unit :=
  fun _ _ _ => Except.ok ()

/-- An S3 client whose every put raises. -/
def s3AlwaysFail : String → String → String → Except String Unit :=
  fun _ _ _ => Except.error "S3Error"

/-- A filesystem on which every file write succeeds. -/
def fileAlwaysOk : String → Except String Unit :=
  fun _ => Except.ok ()

/-- A filesystem on which every file write raises. -/
def fileAlwaysFail : String → Except String Unit :=
  fun _ => Except.error "PermissionError"

/-- Environment: one reservation with one instance whose snapshot has a
timestamp but no output. -/
def envNoOut : Env :=
  ⟨Except.ok [["i-1"]], consoleConst ⟨tsA, none⟩, s3AlwaysOk, fileAlwaysOk⟩

/-- Environment: one instance with output present; all sinks healthy. -/
def envOut : Env :=
  ⟨Except.ok [["i-1"]], consoleConst ⟨tsA, some "panic log A"⟩, s3AlwaysOk, fileAlwaysOk⟩

/-- Environment: output present but the S3 put raises. -/
def envS3Fail : Env :=
  ⟨Except.ok [["i-1"]], consoleConst ⟨tsA, some "panic log A"⟩, s3AlwaysFail, fileAlwaysOk⟩

/-- Environment: output present but the local file write raises. -/
def envFileFail : Env :=
  ⟨Except.ok [["i-1", "i-2"]], consoleConst ⟨tsA, some "panic log A"⟩, s3AlwaysOk, fileAlwaysFail⟩

/-- Environment: the `describe_instances` call raises. -/
def envEnumFail : Env :=
  ⟨Except.error "ThrottlingException", consoleConst ⟨tsA, some "panic log A"⟩,
   s3AlwaysOk, fileAlwaysOk⟩

/-- Environment: the `get_console_output` call raises for every instance. -/
def envFetchFail : Env :=
  ⟨Except.ok [["i-1", "i-2"]], fun _ => Except.error "InvalidInstanceID",
   s3AlwaysOk, fileAlwaysOk⟩

/-! ## Helper lemmas -/

theorem notNovelCond_eq_true_iff (st : TrackerState) (i : String) (t : Timestamp) :
    notNovelCond st i t = true ↔ lookupTs st i = some t := by
  unfold notNovelCond
  cases h : lookupTs st i with
  | none => simp
  | some u => simp [beq_iff_eq]

theorem notNovelCond_eq_false_iff (st : TrackerState) (i : String) (t : Timestamp) :
    notNovelCond st i t = false ↔ lookupTs st i ≠ some t := by
  rw [← Bool.not_eq_true, not_iff_not]
  exact notNovelCond_eq_true_iff st i t

theorem lookupTs_setTs_self (st : TrackerState) (i : String) (t : Timestamp) :
    lookupTs (setTs st i t) i = some t := by
  induction st with
  | nil => simp [setTs, lookupTs]
  | cons p rest ih =>
      obtain ⟨j, u⟩ := p
      by_cases h : j = i
      · simp [setTs, h, lookupTs]
      · simp [setTs, h, lookupTs, ih]

/-- Evaluation of `processInstance` when the fetch succeeds and the
timestamp matches the recorded one: an informational log only, no state
change, no fan-out. -/
theorem processInstance_not_novel (env : Env) (args : Args) (st : TrackerState)
    (i : String) (t : Timestamp) (o : Option String)
    (hc : env.console i = Except.ok ⟨t, o⟩)
    (hold : lookupTs st i = some t) :
    processInstance env args st i =
      Except.ok (st, [Event.logInfo ("Retrieving console log for instance " ++ i),
                      Event.logInfo ("No updates since " ++ tsStr t)]) := by
  have hb : notNovelCond st i t = true := (notNovelCond_eq_true_iff st i t).2 hold
  simp [processInstance, hc, hb]

/-- Evaluation of `processInstance` when the fetch succeeds with output
present and the timestamp is novel: record the timestamp, then fan out. -/
theorem processInstance_novel_output (env : Env) (args : Args) (st : TrackerState)
    (i : String) (t : Timestamp) (out : String)
    (hc : env.console i = Except.ok ⟨t, some out⟩)
    (hnew : lookupTs st i ≠ some t) :
    processInstance env args st i =
      (let ev1 := [Event.logInfo ("Retrieving console log for instance " ++ i),
                   Event.logInfo ("Console updated " ++ tsStr t)]
       let evS3 := out_to_s3 env args.bucket i t out
       let evPr := if args.prnt then out_to_print i t out else []
       if args.file then
         match out_to_file env i t out with
         | Except.error e => Except.error (e, setTs st i t, ev1 ++ evS3 ++ evPr)
         | Except.ok evF => Except.ok (setTs st i t, ev1 ++ evS3 ++ evPr ++ evF)
       else Except.ok (setTs st i t, ev1 ++ evS3 ++ evPr)) := by
  have hb : notNovelCond st i t = false := (notNovelCond_eq_false_iff st i t).2 hnew
  simp [processInstance, hc, hb]

/-- Evaluation of `processInstance` when the fetch succeeds with output
absent and the timestamp is novel: the timestamp is still recorded, and
only a warning follows. -/
theorem processInstance_novel_no_output (env : Env) (args : Args) (st : TrackerState)
    (i : String) (t : Timestamp)
    (hc : env.console i = Except.ok ⟨t, none⟩)
    (hnew : lookupTs st i ≠ some t) :
    processInstance env args st i =
      Except.ok (setTs st i t,
        [Event.logInfo ("Retrieving console log for instance " ++ i),
         Event.logInfo ("Console updated " ++ tsStr t),
         Event.logWarning ("No console output received for instance " ++ i)]) := by
  have hb : notNovelCond st i t = false := (notNovelCond_eq_false_iff st i t).2 hnew
  simp [processInstance, hc, hb]

/-! ## Claim theorems -/

/-- Claim C5 (confirmed): when the instance-enumeration call fails in a cycle,
the program logs the error, performs no console fetches, no novelty checks
and no deliveries (the cycle's whole trace is the two log lines and the
sleep), leaves the tracker untouched, sleeps for the configured interval,
and the next cycle proceeds from the same state; the failure is handled,
not propagated. -/
theorem enumeration_failure_skips_cycle (env : Env) (args : Args)
    (st : TrackerState) (e : String) (rest : List Env)
    (h : env.reservations = Except.error e) :
    pollCycle env args st =
      Except.ok (st, [Event.logInfo "Retrieving instances",
                      Event.logError ("Cannot list instances: " ++ e),
                      Event.sleep args.interval])
    ∧ runCycles args st (env :: rest) =
        (match runCycles args st rest with
         | Except.error (e2, st2, tr2) =>
             Except.error (e2, st2,
               [Event.logInfo "Retrieving instances",
                Event.logError ("Cannot list instances: " ++ e),
                Event.sleep args.interval] ++ tr2)
         | Except.ok (st2, tr2) =>
             Except.ok (st2,
               [Event.logInfo "Retrieving instances",
                Event.logError ("Cannot list instances: " ++ e),
                Event.sleep args.interval] ++ tr2)) := by
  have hcycle : pollCycle env args st =
      Except.ok (st, [Event.logInfo "Retrieving instances",
                      Event.logError ("Cannot list instances: " ++ e),
                      Event.sleep args.interval]) := by
    simp [pollCycle, h]
  refine ⟨hcycle, ?_⟩
  show (match pollCycle env args st with
        | Except.error x => Except.error x
        | Except.ok (st1, tr) =>
            match runCycles args st1 rest with
            | Except.error (e2, st2, tr2) => Except.error (e2, st2, tr ++ tr2)
            | Except.ok (st2, tr2) => Except.ok (st2, tr ++ tr2)) = _
  rw [hcycle]

theorem enumeration_failure_skips_cycle_witness :
    pollCycle envEnumFail argsW [] =
      Except.ok ([], [Event.logInfo "Retrieving instances",
                      Event.logError ("Cannot list instances: " ++ "ThrottlingException"),
                      Event.sleep argsW.interval])
    ∧ runCycles argsW [] (envEnumFail :: []) =
        (match runCycles argsW [] [] with
         | Except.error (e2, st2, tr2) =>
             Except.error (e2, st2,
               [Event.logInfo "Retrieving instances",
                Event.logError ("Cannot list instances: " ++ "ThrottlingException"),
                Event.sleep argsW.interval] ++ tr2)
         | Except.ok (st2, tr2) =>
             Except.ok (st2,
               [Event.logInfo "Retrieving instances",
                Event.logError ("Cannot list instances: " ++ "ThrottlingException"),
                Event.sleep argsW.interval] ++ tr2)) :=
  enumeration_failure_skips_cycle envEnumFail argsW [] "ThrottlingException" [] rfl

/-- Claim C6 (confirmed): when the console fetch fails for one instance, the
error is logged for that instance, the tracker is not mutated, and the rest
of the cycle's instances are processed exactly as they would have been from
the same state — the failure skips only that instance. -/
theorem fetch_failure_skips_instance (env : Env) (args : Args) (st : TrackerState)
    (i e : String) (rest : List String)
    (h : env.console i = Except.error e) :
    processInstance env args st i =
      Except.ok (st, [Event.logInfo ("Retrieving console log for instance " ++ i),
                      Event.logError ("Cannot retrieve log for instance " ++ i ++ ":" ++ e)])
    ∧ processInstances env args st (i :: rest) =
        (match processInstances env args st rest with
         | Except.error (e2, st2, tr2) =>
             Except.error (e2, st2,
               [Event.logInfo ("Retrieving console log for instance " ++ i),
                Event.logError ("Cannot retrieve log for instance " ++ i ++ ":" ++ e)] ++ tr2)
         | Except.ok (st2, tr2) =>
             Except.ok (st2,
               [Event.logInfo ("Retrieving console log for instance " ++ i),
                Event.logError ("Cannot retrieve log for instance " ++ i ++ ":" ++ e)] ++ tr2)) := by
  have hstep : processInstance env args st i =
      Except.ok (st, [Event.logInfo ("Retrieving console log for instance " ++ i),
                      Event.logError ("Cannot retrieve log for instance " ++ i ++ ":" ++ e)]) := by
    simp [processInstance, h]
  refine ⟨hstep, ?_⟩
  show (match processInstance env args st i with
        | Except.error x => Except.error x
        | Except.ok (st1, tr) =>
            match processInstances env args st1 rest with
            | Except.error (e2, st2, tr2) => Except.error (e2, st2, tr ++ tr2)
            | Except.ok (st2, tr2) => Except.ok (st2, tr ++ tr2)) = _
  rw [hstep]

theorem fetch_failure_skips_instance_witness :
    processInstance envFetchFail argsW [] "i-1" =
      Except.ok ([], [Event.logInfo ("Retrieving console log for instance " ++ "i-1"),
                      Event.logError ("Cannot retrieve log for instance " ++ "i-1" ++ ":" ++ "InvalidInstanceID")])
    ∧ processInstances envFetchFail argsW [] ["i-1", "i-2"] =
        (match processInstances envFetchFail argsW [] ["i-2"] with
         | Except.error (e2, st2, tr2) =>
             Except.error (e2, st2,
               [Event.logInfo ("Retrieving console log for instance " ++ "i-1"),
                Event.logError ("Cannot retrieve log for instance " ++ "i-1" ++ ":" ++ "InvalidInstanceID")] ++ tr2)
         | Except.ok (st2, tr2) =>
             Except.ok (st2,
               [Event.logInfo ("Retrieving console log for instance " ++ "i-1"),
                Event.logError ("Cannot retrieve log for instance " ++ "i-1" ++ ":" ++ "InvalidInstanceID")] ++ tr2)) :=
  fetch_failure_skips_instance envFetchFail argsW [] "i-1" "InvalidInstanceID" ["i-2"] rfl

/-- Claim C2 (confirmed): the novelty check is non-novel exactly when an entry
for the instance exists with a timestamp equal to the new one; a repeated
timestamp produces no delivery and no tracker change, and any different
timestamp (also an earlier one — `t` is arbitrary) is novel and, with output
present and healthy sinks, produces exactly one archive delivery (and one
file write exactly when the file sink is enabled). -/
theorem change_tracker_novelty (env : Env) (args : Args) (st : TrackerState)
    (i : String) (t : Timestamp) (out : String)
    (hc : env.console i = Except.ok ⟨t, some out⟩)
    (hs3 : env.s3put args.bucket (i ++ "/" ++ tsStr t) out = Except.ok ())
    (hfw : env.fileW (i ++ "_" ++ tsStrftime t) = Except.ok ()) :
    (isNovel st i t = false ↔ lookupTs st i = some t)
    ∧ (lookupTs st i = some t →
        ∃ tr, processInstance env args st i = Except.ok (st, tr) ∧ deliveries tr = [])
    ∧ (lookupTs st i ≠ some t →
        ∃ tr, processInstance env args st i = Except.ok (setTs st i t, tr)
          ∧ (tr.filter Event.isS3Put).length = 1
          ∧ (tr.filter Event.isFileWrite).length = (if args.file then 1 else 0)) := by
  refine ⟨?_, ?_, ?_⟩
  · rw [isNovel, Bool.not_eq_false']
    exact notNovelCond_eq_true_iff st i t
  · intro hold
    exact ⟨_, processInstance_not_novel env args st i t (some out) hc hold, rfl⟩
  · intro hnew
    rw [processInstance_novel_output env args st i t out hc hnew]
    have hs3' : out_to_s3 env args.bucket i t out =
        [Event.logInfo ("Writing key " ++ (i ++ "/" ++ tsStr t) ++ " to S3 bucket " ++ args.bucket),
         Event.s3Put args.bucket (i ++ "/" ++ tsStr t) out] := by
      simp [out_to_s3, hs3]
    have hfile' : out_to_file env i t out =
        Except.ok [Event.logInfo ("Writing output to file " ++ (i ++ "_" ++ tsStrftime t)),
                   Event.fileWrite (i ++ "_" ++ tsStrftime t) (out ++ "\n")] := by
      simp [out_to_file, hfw]
    cases hf : args.file <;> cases hp : args.prnt <;>
      simp [hs3', hfile', out_to_print, List.filter_append,
            Event.isS3Put, Event.isFileWrite]

theorem change_tracker_novelty_witness :
    (isNovel [] "i-1" tsA = false ↔ lookupTs [] "i-1" = some tsA)
    ∧ (lookupTs [] "i-1" = some tsA →
        ∃ tr, processInstance envOut argsW [] "i-1" = Except.ok ([], tr) ∧ deliveries tr = [])
    ∧ (lookupTs [] "i-1" ≠ some tsA →
        ∃ tr, processInstance envOut argsW [] "i-1" = Except.ok (setTs [] "i-1" tsA, tr)
          ∧ (tr.filter Event.isS3Put).length = 1
          ∧ (tr.filter Event.isFileWrite).length = (if argsW.file then 1 else 0)) :=
  change_tracker_novelty envOut argsW [] "i-1" tsA "panic log A" rfl rfl rfl

/-- Claim C1 counterexample: a snapshot with no output and a novel timestamp
DOES mutate the tracker.  From an empty tracker, instance `i-1` answers with
timestamp `tsA` and no output; the step logs the warning and delivers
nothing, but the resulting tracker `[("i-1", tsA)]` differs from the input
tracker `[]` — the claim's "zero mutation of the Change Tracker state" is
false.  (In the source, `last_update[instanceId] = response["Timestamp"]` on
line 146 runs before the `"Output" in response` test on line 147.) -/
theorem no_output_zero_mutation_cex :
    processInstance envNoOut argsW [] "i-1" =
      Except.ok ([("i-1", tsA)],
        [Event.logInfo "Retrieving console log for instance i-1",
         Event.logInfo "Console updated 2024-01-02 03:04:05",
         Event.logWarning "No console output received for instance i-1"])
    ∧ ([("i-1", tsA)] : TrackerState) ≠ [] :=
  ⟨rfl, by decide⟩

/-- Claim C1 amended: a snapshot with no output produces zero deliveries to
any sink; when its timestamp equals the recorded one the tracker is
unchanged (and no warning is logged — only "No updates"), but when the
timestamp is novel the tracker IS updated to the snapshot's timestamp and
the warning is logged. -/
theorem no_output_skips_delivery (env : Env) (args : Args) (st : TrackerState)
    (i : String) (t : Timestamp)
    (hc : env.console i = Except.ok ⟨t, none⟩) :
    ∃ st1 tr, processInstance env args st i = Except.ok (st1, tr)
      ∧ deliveries tr = []
      ∧ st1 = (if lookupTs st i = some t then st else setTs st i t)
      ∧ (lookupTs st i ≠ some t →
          Event.logWarning ("No console output received for instance " ++ i) ∈ tr) := by
  by_cases hold : lookupTs st i = some t
  · refine ⟨st, _, processInstance_not_novel env args st i t none hc hold, rfl, ?_, ?_⟩
    · simp [hold]
    · intro hcontra; exact absurd hold hcontra
  · refine ⟨setTs st i t, _, processInstance_novel_no_output env args st i t hc hold, rfl, ?_, ?_⟩
    · simp [hold]
    · intro _; simp

theorem no_output_skips_delivery_witness :
    ∃ st1 tr, processInstance envNoOut argsW [] "i-1" = Except.ok (st1, tr)
      ∧ deliveries tr = []
      ∧ st1 = (if lookupTs [] "i-1" = some tsA then [] else setTs [] "i-1" tsA)
      ∧ (lookupTs [] "i-1" ≠ some tsA →
          Event.logWarning ("No console output received for instance " ++ "i-1") ∈ tr) :=
  no_output_skips_delivery envNoOut argsW [] "i-1" tsA rfl

/-- Claim C9 (confirmed): once a timestamp `t` has been recorded from a
response that lacked output, any later response for that instance carrying
the same `t` — even with output now present — is treated as non-novel and
delivers nothing to any sink, for as long as the tracker entry still holds
`t`. -/
theorem no_output_timestamp_suppresses_later_output (env1 env2 : Env) (args : Args)
    (st : TrackerState) (i : String) (t : Timestamp) (out : String)
    (h1 : env1.console i = Except.ok ⟨t, none⟩)
    (hnew : lookupTs st i ≠ some t)
    (h2 : env2.console i = Except.ok ⟨t, some out⟩) :
    (∃ tr1, processInstance env1 args st i = Except.ok (setTs st i t, tr1)
        ∧ deliveries tr1 = [])
    ∧ lookupTs (setTs st i t) i = some t
    ∧ (∀ st2 : TrackerState, lookupTs st2 i = some t →
        ∃ tr2, processInstance env2 args st2 i = Except.ok (st2, tr2)
          ∧ deliveries tr2 = []) := by
  refine ⟨⟨_, processInstance_novel_no_output env1 args st i t h1 hnew, rfl⟩,
          lookupTs_setTs_self st i t, ?_⟩
  intro st2 hold2
  exact ⟨_, processInstance_not_novel env2 args st2 i t (some out) h2 hold2, rfl⟩

theorem no_output_timestamp_suppresses_later_output_witness :
    (∃ tr1, processInstance envNoOut argsWF [] "i-1" = Except.ok (setTs [] "i-1" tsA, tr1)
        ∧ deliveries tr1 = [])
    ∧ lookupTs (setTs [] "i-1" tsA) "i-1" = some tsA
    ∧ (∀ st2 : TrackerState, lookupTs st2 "i-1" = some tsA →
        ∃ tr2, processInstance envOut argsWF st2 "i-1" = Except.ok (st2, tr2)
          ∧ deliveries tr2 = []) :=
  no_output_timestamp_suppresses_later_output envNoOut envOut argsWF [] "i-1" tsA
    "panic log A" rfl (by decide) rfl

/-- Claim C3 (confirmed): a novel snapshot's timestamp is recorded in the
tracker whatever the archive store does (`env1.s3put` is unconstrained
here), and once recorded, any later response with the unchanged timestamp is
answered by the "No updates" log alone — in particular no archive attempt is
made again, so a failed archive write is never retried while the remote
timestamp stays the same. -/
theorem failed_archive_not_retried (env1 : Env) (args : Args) (st : TrackerState)
    (i : String) (t : Timestamp) (out : String)
    (h1 : env1.console i = Except.ok ⟨t, some out⟩)
    (hnew : lookupTs st i ≠ some t)
    (hfw : ∀ f, env1.fileW f = Except.ok ()) :
    (∃ tr1, processInstance env1 args st i = Except.ok (setTs st i t, tr1)
        ∧ lookupTs (setTs st i t) i = some t)
    ∧ (∀ (env2 : Env) (st2 : TrackerState) (o2 : Option String),
        env2.console i = Except.ok ⟨t, o2⟩ → lookupTs st2 i = some t →
          processInstance env2 args st2 i =
            Except.ok (st2, [Event.logInfo ("Retrieving console log for instance " ++ i),
                             Event.logInfo ("No updates since " ++ tsStr t)])) := by
  constructor
  · rw [processInstance_novel_output env1 args st i t out h1 hnew]
    have hfile' : out_to_file env1 i t out =
        Except.ok [Event.logInfo ("Writing output to file " ++ (i ++ "_" ++ tsStrftime t)),
                   Event.fileWrite (i ++ "_" ++ tsStrftime t) (out ++ "\n")] := by
      simp [out_to_file, hfw]
    cases hf : args.file <;> simp [hfile', lookupTs_setTs_self]
  · intro env2 st2 o2 h2 hold2
    exact processInstance_not_novel env2 args st2 i t o2 h2 hold2

theorem failed_archive_not_retried_witness :
    (∃ tr1, processInstance envS3Fail argsW [] "i-1" = Except.ok (setTs [] "i-1" tsA, tr1)
        ∧ lookupTs (setTs [] "i-1" tsA) "i-1" = some tsA)
    ∧ (∀ (env2 : Env) (st2 : TrackerState) (o2 : Option String),
        env2.console "i-1" = Except.ok ⟨tsA, o2⟩ → lookupTs st2 "i-1" = some tsA →
          processInstance env2 argsW st2 "i-1" =
            Except.ok (st2, [Event.logInfo ("Retrieving console log for instance " ++ "i-1"),
                             Event.logInfo ("No updates since " ++ tsStr tsA)])) :=
  failed_archive_not_retried envS3Fail argsW [] "i-1" tsA "panic log A"
    rfl (by decide) (fun _ => rfl)

/-- Claim C4 (confirmed): when the S3 put raises during a novel delivery, the
exception is caught and logged as an error, the step still returns normally
(no abort of the cycle or the process), no S3 object is written, and the
standard-output and local-file sinks (when enabled) still receive the
output. -/
theorem s3_failure_logged_and_contained (env : Env) (args : Args) (st : TrackerState)
    (i : String) (t : Timestamp) (out e : String)
    (hc : env.console i = Except.ok ⟨t, some out⟩)
    (hnew : lookupTs st i ≠ some t)
    (hs3 : env.s3put args.bucket (i ++ "/" ++ tsStr t) out = Except.error e)
    (hfw : env.fileW (i ++ "_" ++ tsStrftime t) = Except.ok ()) :
    ∃ tr, processInstance env args st i = Except.ok (setTs st i t, tr)
      ∧ Event.logError ("Cannot put object to S3 bucket" ++ args.bucket ++ ":" ++ e) ∈ tr
      ∧ tr.filter Event.isS3Put = []
      ∧ (args.prnt = true → Event.stdoutLine out ∈ tr)
      ∧ (args.file = true →
          Event.fileWrite (i ++ "_" ++ tsStrftime t) (out ++ "\n") ∈ tr) := by
  rw [processInstance_novel_output env args st i t out hc hnew]
  have hs3' : out_to_s3 env args.bucket i t out =
      [Event.logInfo ("Writing key " ++ (i ++ "/" ++ tsStr t) ++ " to S3 bucket " ++ args.bucket),
       Event.logError ("Cannot put object to S3 bucket" ++ args.bucket ++ ":" ++ e)] := by
    simp [out_to_s3, hs3]
  have hfile' : out_to_file env i t out =
      Except.ok [Event.logInfo ("Writing output to file " ++ (i ++ "_" ++ tsStrftime t)),
                 Event.fileWrite (i ++ "_" ++ tsStrftime t) (out ++ "\n")] := by
    simp [out_to_file, hfw]
  cases hf : args.file <;> cases hp : args.prnt <;>
    simp [hs3', hfile', out_to_print, List.filter_append,
          Event.isS3Put, Event.isFileWrite]

theorem s3_failure_logged_and_contained_witness :
    ∃ tr, processInstance envS3Fail argsWF [] "i-1" = Except.ok (setTs [] "i-1" tsA, tr)
      ∧ Event.logError ("Cannot put object to S3 bucket" ++ argsWF.bucket ++ ":" ++ "S3Error") ∈ tr
      ∧ tr.filter Event.isS3Put = []
      ∧ (argsWF.prnt = true → Event.stdoutLine "panic log A" ∈ tr)
      ∧ (argsWF.file = true →
          Event.fileWrite ("i-1" ++ "_" ++ tsStrftime tsA) ("panic log A" ++ "\n") ∈ tr) :=
  s3_failure_logged_and_contained envS3Fail argsWF [] "i-1" tsA "panic log A" "S3Error"
    rfl (by decide) rfl rfl

/-- Claim C7 (confirmed): a novel delivery's archive write stores the output
as the object body under the configured bucket with key
`instanceId ++ "/" ++ str(timestamp)`, and it is the only S3 object that
step writes. -/
theorem archive_key_format (env : Env) (args : Args) (st : TrackerState)
    (i : String) (t : Timestamp) (out : String)
    (hc : env.console i = Except.ok ⟨t, some out⟩)
    (hnew : lookupTs st i ≠ some t)
    (hs3 : env.s3put args.bucket (i ++ "/" ++ tsStr t) out = Except.ok ())
    (hfw : env.fileW (i ++ "_" ++ tsStrftime t) = Except.ok ()) :
    ∃ tr, processInstance env args st i = Except.ok (setTs st i t, tr)
      ∧ tr.filter Event.isS3Put =
          [Event.s3Put args.bucket (i ++ "/" ++ tsStr t) out] := by
  rw [processInstance_novel_output env args st i t out hc hnew]
  have hs3' : out_to_s3 env args.bucket i t out =
      [Event.logInfo ("Writing key " ++ (i ++ "/" ++ tsStr t) ++ " to S3 bucket " ++ args.bucket),
       Event.s3Put args.bucket (i ++ "/" ++ tsStr t) out] := by
    simp [out_to_s3, hs3]
  have hfile' : out_to_file env i t out =
      Except.ok [Event.logInfo ("Writing output to file " ++ (i ++ "_" ++ tsStrftime t)),
                 Event.fileWrite (i ++ "_" ++ tsStrftime t) (out ++ "\n")] := by
    simp [out_to_file, hfw]
  cases hf : args.file <;> cases hp : args.prnt <;>
    simp [hs3', hfile', out_to_print, List.filter_append, Event.isS3Put]

theorem archive_key_format_witness :
    ∃ tr, processInstance envOut argsW [] "i-1" = Except.ok (setTs [] "i-1" tsA, tr)
      ∧ tr.filter Event.isS3Put =
          [Event.s3Put argsW.bucket ("i-1" ++ "/" ++ tsStr tsA) "panic log A"] :=
  archive_key_format envOut argsW [] "i-1" tsA "panic log A" rfl (by decide) rfl rfl

/-- Claim C8 counterexample: the local file sink writes `output ++ "\n"`, not
the raw output — `print(output, file=outfile)` appends a newline.  At the
concrete input the content written is `"panic log A\n"`, which differs from
the raw console output `"panic log A"`, so "the file's content equals the
raw console output" is false. -/
theorem file_content_not_raw_output_cex :
    out_to_file envOut "i-1" tsA "panic log A" =
      Except.ok [Event.logInfo "Writing output to file i-1_2024-01-02T030405",
                 Event.fileWrite "i-1_2024-01-02T030405" "panic log A\n"]
    ∧ "panic log A\n" ≠ "panic log A" :=
  ⟨rfl, by decide⟩

/-- Claim C8 amended: a novel delivery with the local-file sink enabled writes
one file, named `instanceId ++ "_" ++ strftime('%Y-%m-%dT%H%M%S')`, opened
in truncating (overwrite) mode, whose content is the raw console output
followed by a newline. -/
theorem file_sink_write (env : Env) (args : Args) (st : TrackerState)
    (i : String) (t : Timestamp) (out : String)
    (hfile : args.file = true)
    (hc : env.console i = Except.ok ⟨t, some out⟩)
    (hnew : lookupTs st i ≠ some t)
    (hfw : env.fileW (i ++ "_" ++ tsStrftime t) = Except.ok ()) :
    ∃ tr, processInstance env args st i = Except.ok (setTs st i t, tr)
      ∧ tr.filter Event.isFileWrite =
          [Event.fileWrite (i ++ "_" ++ tsStrftime t) (out ++ "\n")] := by
  rw [processInstance_novel_output env args st i t out hc hnew]
  have hfile' : out_to_file env i t out =
      Except.ok [Event.logInfo ("Writing output to file " ++ (i ++ "_" ++ tsStrftime t)),
                 Event.fileWrite (i ++ "_" ++ tsStrftime t) (out ++ "\n")] := by
    simp [out_to_file, hfw]
  rw [hfile]
  cases hs : env.s3put args.bucket (i ++ "/" ++ tsStr t) out <;>
    cases hp : args.prnt <;>
    simp [hfile', out_to_s3, hs, out_to_print, List.filter_append, Event.isFileWrite]

theorem file_sink_write_witness :
    ∃ tr, processInstance envOut argsWF [] "i-1" = Except.ok (setTs [] "i-1" tsA, tr)
      ∧ tr.filter Event.isFileWrite =
          [Event.fileWrite ("i-1" ++ "_" ++ tsStrftime tsA) ("panic log A" ++ "\n")] :=
  file_sink_write envOut argsWF [] "i-1" tsA "panic log A" rfl rfl (by decide) rfl

/-- Claim C10 (confirmed): an exception in the local file write is caught
nowhere: it propagates out of the instance step, out of the polling cycle
(whose partial trace contains only the crashed instance's events — the
remaining instances of the cycle are never processed), and terminates the
whole run: the cycles in `more` never execute.  This is in contrast to the
archive-store failure, which `out_to_s3` catches. -/
theorem file_failure_crashes_process (env : Env) (args : Args) (st : TrackerState)
    (i : String) (t : Timestamp) (out e : String) (rest : List String)
    (more : List Env)
    (hfile : args.file = true)
    (hres : env.reservations = Except.ok [i :: rest])
    (hc : env.console i = Except.ok ⟨t, some out⟩)
    (hnew : lookupTs st i ≠ some t)
    (hfw : env.fileW (i ++ "_" ++ tsStrftime t) = Except.error e) :
    ∃ tr, processInstance env args st i = Except.error (e, setTs st i t, tr)
      ∧ pollCycle env args st =
          Except.error (e, setTs st i t,
            Event.logInfo "Retrieving instances"
              :: Event.logDebug (toString (i :: rest)) :: tr)
      ∧ runCycles args st (env :: more) =
          Except.error (e, setTs st i t,
            Event.logInfo "Retrieving instances"
              :: Event.logDebug (toString (i :: rest)) :: tr) := by
  have hfile' : out_to_file env i t out = Except.error e := by
    simp [out_to_file, hfw]
  have hstep : processInstance env args st i =
      Except.error (e, setTs st i t,
        [Event.logInfo ("Retrieving console log for instance " ++ i),
         Event.logInfo ("Console updated " ++ tsStr t)]
          ++ out_to_s3 env args.bucket i t out
          ++ (if args.prnt then out_to_print i t out else [])) := by
    rw [processInstance_novel_output env args st i t out hc hnew]
    rw [hfile]
    simp [hfile']
  refine ⟨_, hstep, ?_, ?_⟩
  · show (match env.reservations with
          | Except.error e0 =>
              Except.ok (st, [Event.logInfo "Retrieving instances"]
                ++ [Event.logError ("Cannot list instances: " ++ e0),
                    Event.sleep args.interval])
          | Except.ok rs =>
              match processReservations env args st rs with
              | Except.error (e1, st1, tr1) =>
                  Except.error (e1, st1, [Event.logInfo "Retrieving instances"] ++ tr1)
              | Except.ok (st1, tr1) =>
                  Except.ok (st1,
                    [Event.logInfo "Retrieving instances"] ++ tr1
                      ++ [Event.logInfo ("Sleeping for " ++ toString args.interval
                            ++ " seconds, press Ctrl+C to interrupt..."),
                          Event.sleep args.interval])) = _
    rw [hres]
    simp [processReservations, processInstances, hstep]
  · show (match pollCycle env args st with
          | Except.error x => Except.error x
          | Except.ok (st1, tr1) =>
              match runCycles args st1 more with
              | Except.error (e2, st2, tr2) => Except.error (e2, st2, tr1 ++ tr2)
              | Except.ok (st2, tr2) => Except.ok (st2, tr1 ++ tr2)) = _
    have hcycle : pollCycle env args st =
        Except.error (e, setTs st i t,
          Event.logInfo "Retrieving instances"
            :: Event.logDebug (toString (i :: rest))
            :: ([Event.logInfo ("Retrieving console log for instance " ++ i),
                 Event.logInfo ("Console updated " ++ tsStr t)]
                 ++ out_to_s3 env args.bucket i t out
                 ++ (if args.prnt then out_to_print i t out else []))) := by
      show (match env.reservations with
            | Except.error e0 =>
                Except.ok (st, [Event.logInfo "Retrieving instances"]
                  ++ [Event.logError ("Cannot list instances: " ++ e0),
                      Event.sleep args.interval])
            | Except.ok rs =>
                match processReservations env args st rs with
                | Except.error (e1, st1, tr1) =>
                    Except.error (e1, st1, [Event.logInfo "Retrieving instances"] ++ tr1)
                | Except.ok (st1, tr1) =>
                    Except.ok (st1,
                      [Event.logInfo "Retrieving instances"] ++ tr1
                        ++ [Event.logInfo ("Sleeping for " ++ toString args.interval
                              ++ " seconds, press Ctrl+C to interrupt..."),
                            Event.sleep args.interval])) = _
      rw [hres]
      simp [processReservations, processInstances, hstep]
    rw [hcycle]

theorem file_failure_crashes_process_witness :
    ∃ tr, processInstance envFileFail argsWF [] "i-1" =
        Except.error ("PermissionError", setTs [] "i-1" tsA, tr)
      ∧ pollCycle envFileFail argsWF [] =
          Except.error ("PermissionError", setTs [] "i-1" tsA,
            Event.logInfo "Retrieving instances"
              :: Event.logDebug (toString ["i-1", "i-2"]) :: tr)
      ∧ runCycles argsWF [] (envFileFail :: [envOut]) =
          Except.error ("PermissionError", setTs [] "i-1" tsA,
            Event.logInfo "Retrieving instances"
              :: Event.logDebug (toString ["i-1", "i-2"]) :: tr) :=
  file_failure_crashes_process envFileFail argsWF [] "i-1" tsA "panic log A"
    "PermissionError" ["i-2"] [envOut] rfl rfl rfl (by decide) rfl

end MonitorConsole
